import Mathlib

/-!
Verification of the typed-request router and request-decoding contract of
the endpoint collection in `main.py`: route matching over an ordered route
table, value decoding (int, decimal, bool, enum-of-string, list-of-string,
greedy path), numeric constraint validation, and the concrete handlers
(`create_item`, `get_model`, `read_file`, `read_user_me`, `read_items`).

Modelling conventions:
* machine floats of the source are modelled as exact rationals (`ℚ`);
* a URL path is modelled as its list of `/`-separated components, so
  `/users/me` is `["users", "me"]` and `/items/` is `["items", ""]`;
* response bodies are association lists of JSON-like values;
* handlers are identified by the line number of their `def` in `main.py`.
-/

namespace FastapiTutorial

/-- JSON-like response values; numbers are exact rationals. -/
inductive Val where
  | null
  | str (s : String)
  | num (q : ℚ)
  | bool (b : Bool)
  | arr (vs : List Val)
  | obj (fields : List (String × Val))

/-- Nested model `Image` (`main.py` lines 8-10). -/
structure Image where
  url : String
  name : String
  deriving DecidableEq

/-- Request-body model `Item` (`main.py` lines 15-23): `description`,
`tax` and `images` are optional with default `None`, `tags` defaults
to the empty collection. -/
structure Item where
  name : String
  description : Option String := none
  price : ℚ
  tax : Option ℚ := none
  tags : List String := []
  images : Option (List Image) := none
  deriving DecidableEq

/-- Field-by-field serialization of an `Item` (`model_dump`): every
declared field appears, optional fields serialize as `null` when absent. -/
def model_dump (it : Item) : List (String × Val) :=
  [ ("name", Val.str it.name)
  , ("description", match it.description with
      | none => Val.null
      | some d => Val.str d)
  , ("price", Val.num it.price)
  , ("tax", match it.tax with
      | none => Val.null
      | some t => Val.num t)
  , ("tags", Val.arr (it.tags.map Val.str))
  , ("images", match it.images with
      | none => Val.null
      | some l => Val.arr (l.map fun im =>
          Val.obj [("url", Val.str im.url), ("name", Val.str im.name)])) ]

/-- Truthiness of the optional `tax` value: `None` and `0.0` are falsy,
every other number is truthy (the `if item.tax:` test of the source). -/
def taxTruthy : Option ℚ → Bool
  | none => false
  | some t => t != 0

/-- Handler `create_item` (`main.py` lines 342-348): dump the item and,
when `item.tax` is truthy, append `price_with_tax = price + tax`. -/
def create_item (it : Item) : List (String × Val) :=
  let item_dict := model_dump it
  if taxTruthy it.tax then
    item_dict ++ [("price_with_tax", Val.num (it.price + it.tax.getD 0))]
  else
    item_dict

/-! ## Route matching -/

/-- HTTP methods used by the registered routes. -/
inductive Method where
  | get
  | post
  | put
  deriving DecidableEq

/-- One segment of a route template: a literal component, a simple
parameter binding one component, or a greedy (`:path`) parameter. -/
inductive Seg where
  | lit (s : String)
  | param (name : String)
  | greedy (name : String)
  deriving DecidableEq

/-- A registered route: method, path template, handler identifier. -/
structure Route where
  method : Method
  segs : List Seg
  handler : Nat
  deriving DecidableEq

/-- Structural match of a template against a request path's components:
literal segments must be equal exactly (case-sensitive), a `param`
segment binds exactly one component, and a trailing `greedy` segment
binds all remaining components joined by `/`; segment counts must agree
unless a greedy segment is present. -/
def matchSegs : List Seg → List String → Option (List (String × String))
  | [], [] => some []
  | [], _ :: _ => none
  | Seg.lit s :: rest, c :: cs => if s = c then matchSegs rest cs else none
  | Seg.lit _ :: _, [] => none
  | Seg.param n :: rest, c :: cs => (matchSegs rest cs).map (fun bs => (n, c) :: bs)
  | Seg.param _ :: _, [] => none
  | [Seg.greedy n], cs => some [(n, String.intercalate "/" cs)]
  | Seg.greedy _ :: _ :: _, _ => none

/-- First-match route lookup: scan the table in registration order and
return the handler and raw bindings of the first route whose method and
structure match; `none` when no template matches. -/
def matchRoute : List Route → Method → List String → Option (Nat × List (String × String))
  | [], _, _ => none
  | r :: rs, m, p =>
    if r.method = m then
      match matchSegs r.segs p with
      | some bs => some (r.handler, bs)
      | none => matchRoute rs m p
    else matchRoute rs m p

/-- Whether a route carries exactly the template (method, segments). -/
def sameTpl (m : Method) (segs : List Seg) (r' : Route) : Bool :=
  r'.method == m && r'.segs == segs

/-- Registration: an exact duplicate of an already-registered
(method, template) pair replaces the earlier handler in place; a new
template is appended at the end of the table. -/
def register (T : List Route) (r : Route) : List Route :=
  if T.any (sameTpl r.method r.segs) then
    T.map (fun r' => if sameTpl r.method r.segs r' then r else r')
  else T ++ [r]

/-- Template of the many `/items/{item_id}` registrations. -/
def itemsIdSegs : List Seg := [Seg.lit "items", Seg.param "item_id"]

/-- Template of the many `/items/` registrations. -/
def itemsSegs : List Seg := [Seg.lit "items", Seg.lit ""]

/-- Template of `/files/{file_path:path}` (`main.py` line 429). -/
def filesSegs : List Seg := [Seg.lit "files", Seg.greedy "file_path"]

/-- Every route registration of `main.py`, in source order; each handler
is identified by the line number of its function definition. -/
def registrations : List Route :=
  [ ⟨Method.post, [Seg.lit "index-weights", Seg.lit ""], 52⟩
  , ⟨Method.post, [Seg.lit "images", Seg.lit "multiple", Seg.lit ""], 58⟩
  , ⟨Method.put, itemsIdSegs, 64⟩
  , ⟨Method.put, itemsIdSegs, 71⟩
  , ⟨Method.put, itemsIdSegs, 87⟩
  , ⟨Method.put, itemsIdSegs, 97⟩
  , ⟨Method.get, itemsIdSegs, 112⟩
  , ⟨Method.get, itemsIdSegs, 126⟩
  , ⟨Method.get, itemsIdSegs, 138⟩
  , ⟨Method.get, itemsIdSegs, 149⟩
  , ⟨Method.get, itemsIdSegs, 158⟩
  , ⟨Method.get, itemsSegs, 170⟩
  , ⟨Method.get, itemsSegs, 181⟩
  , ⟨Method.get, itemsSegs, 205⟩
  , ⟨Method.get, itemsSegs, 214⟩
  , ⟨Method.get, itemsSegs, 234⟩
  , ⟨Method.get, itemsSegs, 243⟩
  , ⟨Method.get, itemsSegs, 250⟩
  , ⟨Method.get, itemsSegs, 259⟩
  , ⟨Method.get, itemsSegs, 268⟩
  , ⟨Method.get, itemsSegs, 277⟩
  , ⟨Method.get, itemsSegs, 286⟩
  , ⟨Method.get, itemsSegs, 299⟩
  , ⟨Method.get, itemsSegs, 310⟩
  , ⟨Method.get, itemsSegs, 319⟩
  , ⟨Method.put, itemsIdSegs, 328⟩
  , ⟨Method.put, itemsIdSegs, 337⟩
  , ⟨Method.post, itemsSegs, 343⟩
  , ⟨Method.post, itemsSegs, 353⟩
  , ⟨Method.get, itemsIdSegs, 359⟩
  , ⟨Method.get, itemsIdSegs, 371⟩
  , ⟨Method.get, [Seg.lit "users", Seg.param "user_id", Seg.lit "items", Seg.param "item_id"], 378⟩
  , ⟨Method.get, itemsIdSegs, 399⟩
  , ⟨Method.get, itemsIdSegs, 412⟩
  , ⟨Method.get, itemsSegs, 424⟩
  , ⟨Method.get, filesSegs, 430⟩
  , ⟨Method.get, [Seg.lit "models", Seg.param "model_name"], 436⟩
  , ⟨Method.get, [Seg.lit "users", Seg.lit "me"], 448⟩
  , ⟨Method.get, [Seg.lit "users", Seg.param "user_id"], 454⟩
  , ⟨Method.get, itemsIdSegs, 460⟩
  , ⟨Method.get, itemsIdSegs, 466⟩
  , ⟨Method.get, [Seg.lit ""], 471⟩ ]

/-- The route table obtained by registering every route of `main.py`
in source order. -/
def routeTable : List Route := registrations.foldl register []

/-- Handler `read_user_me` (`main.py` line 448). -/
def read_user_me : List (String × Val) := [("user_id", Val.str "the current user")]

/-- Handler `read_file` (`main.py` line 430). -/
def read_file (file_path : String) : List (String × Val) :=
  [("file_path", Val.str file_path)]

/-! ## Value decoding and constraint validation -/

/-- Decimal digit string to `Nat`; fails on empty or non-digit input. -/
def digitsToNat (ds : List Char) : Option Nat :=
  if ds ≠ [] ∧ ds.all Char.isDigit then
    some (ds.foldl (fun a c => a * 10 + (c.toNat - 48)) 0)
  else none

/-- Integer literal decoder for raw path/query tokens. -/
def decodeInt (s : String) : Option Int :=
  match s.data with
  | '-' :: ds => (digitsToNat ds).map (fun n => -(n : Int))
  | ds => (digitsToNat ds).map (fun n => (n : Int))

/-- Decimal literal decoder, read as an exact rational. -/
def decodeRat (s : String) : Option ℚ :=
  let core : List Char → Option ℚ := fun ds =>
    match ds.splitOn '.' with
    | [ip] => (digitsToNat ip).map (fun n => (n : ℚ))
    | [ip, fp] =>
      match digitsToNat ip, digitsToNat fp with
      | some i, some f => some ((i : ℚ) + (f : ℚ) / (10 : ℚ) ^ fp.length)
      | _, _ => none
    | _ => none
  match s.data with
  | '-' :: ds => (core ds).map Neg.neg
  | ds => core ds

/-- The fixed truthy tokens of bool decoding. -/
def truthySet : List String := ["1", "true", "on", "yes"]

/-- The fixed falsy tokens of bool decoding. -/
def falsySet : List String := ["0", "false", "off", "no"]

/-- ASCII lower-casing of one character. -/
def lowerChar (c : Char) : Char :=
  if 'A' ≤ c ∧ c ≤ 'Z' then Char.ofNat (c.toNat + 32) else c

/-- ASCII lower-casing of a token (the relevant alphabet of the bool
token sets). -/
def lowerStr (s : String) : String :=
  ⟨s.data.map lowerChar⟩

/-- Bool decoding for raw query tokens (the `short: bool` parameter of
`read_item`, `main.py` line 399): case-insensitive membership in the
fixed truthy and falsy sets; any other token fails. -/
def decodeBool (t : String) : Option Bool :=
  if lowerStr t ∈ truthySet then some true
  else if lowerStr t ∈ falsySet then some false
  else none

/-- `list-of-string` query decoding (`main.py` line 234): the values of
the repeated `name` keys in appearance order; the declared default when
the parameter is absent. -/
def decodeListQuery (name : String) (dflt : List String)
    (pairs : List (String × String)) : List String :=
  let vs := (pairs.filter (fun p => p.1 == name)).map Prod.snd
  if vs = [] then dflt else vs

/-- Handler `read_items` of `main.py` lines 234-236 with its declared
default `q = ["foo", "bar"]`. -/
def read_items_234 (pairs : List (String × String)) : List (String × Val) :=
  [("q", Val.arr ((decodeListQuery "q" ["foo", "bar"] pairs).map Val.str))]

/-- The kinds of per-field validation failures. -/
inductive ErrKind where
  | decodeError
  | constraintViolation
  | missingRequired
  deriving DecidableEq

/-- A single validation failure, naming the failing field. -/
structure FieldError where
  field : String
  kind : ErrKind
  deriving DecidableEq

/-- Decode and validate `item_id` (path parameter, int, `ge=0, le=1000`;
`main.py` line 114). -/
def decodeItemId (tok : String) : Except FieldError Int :=
  match decodeInt tok with
  | none => Except.error ⟨"item_id", ErrKind.decodeError⟩
  | some n =>
    if 0 ≤ n ∧ n ≤ 1000 then Except.ok n
    else Except.error ⟨"item_id", ErrKind.constraintViolation⟩

/-- Decode `q` (query parameter, required string, no default;
`main.py` line 115). -/
def decodeQ : Option String → Except FieldError String
  | none => Except.error ⟨"q", ErrKind.missingRequired⟩
  | some v => Except.ok v

/-- Decode and validate `size` (query parameter, float, `gt=0, lt=10.5`;
`main.py` line 116). The upper bound `10.5` is written `mkRat 21 2`,
the same rational in computable form. -/
def decodeSize : Option String → Except FieldError ℚ
  | none => Except.error ⟨"size", ErrKind.missingRequired⟩
  | some tok =>
    match decodeRat tok with
    | none => Except.error ⟨"size", ErrKind.decodeError⟩
    | some r =>
      if 0 < r ∧ r < mkRat 21 2 then Except.ok r
      else Except.error ⟨"size", ErrKind.constraintViolation⟩

/-- The failure of one parameter's decoding, as a (possibly empty)
error list. -/
def errOf {α : Type} : Except FieldError α → List FieldError
  | Except.error e => [e]
  | Except.ok _ => []

/-- Handler `read_items` (`main.py` lines 112-121): echo `item_id` and,
when `q` is truthy (non-empty), `q`; `size` is validated but unused. -/
def read_items_112 (item_id : Int) (q : String) : List (String × Val) :=
  let results := [("item_id", Val.num (item_id : ℚ))]
  if q = "" then results else results ++ [("q", Val.str q)]

/-- All decoding/validation failures of a GET `/items/{item_id}` request
against the route of `main.py` lines 110-121, in declaration order. -/
def itemsGetErrors (idTok : String) (qTok sizeTok : Option String) : List FieldError :=
  errOf (decodeItemId idTok) ++ errOf (decodeQ qTok) ++ errOf (decodeSize sizeTok)

/-- Dispatcher for GET `/items/{item_id}` (`main.py` lines 110-121):
decode and validate every declared parameter, collecting all failures;
the handler runs only when no parameter fails, otherwise the batch of
every failing field is returned. -/
def itemsGetEndpoint (idTok : String) (qTok sizeTok : Option String) :
    Except (List FieldError) (List (String × Val)) :=
  match decodeItemId idTok, decodeQ qTok, decodeSize sizeTok with
  | Except.ok item_id, Except.ok q, Except.ok _ => Except.ok (read_items_112 item_id q)
  | a, b, c => Except.error (errOf a ++ errOf b ++ errOf c)

/-! ## The `/models/{model_name}` enum endpoint -/

/-- Enum `ModelName` (`main.py` lines 34-37). -/
inductive ModelName where
  | alexnet
  | resnet
  | lenet
  deriving DecidableEq

/-- The underlying string value of each `ModelName` member. -/
def ModelName.value : ModelName → String
  | ModelName.alexnet => "alexnet"
  | ModelName.resnet => "resnet"
  | ModelName.lenet => "lenet"

/-- Enum-of-string decoding: the raw token must equal one member's
underlying value, case-sensitively; any other token is rejected. -/
def decodeModelName (s : String) : Option ModelName :=
  if s = "alexnet" then some ModelName.alexnet
  else if s = "resnet" then some ModelName.resnet
  else if s = "lenet" then some ModelName.lenet
  else none

/-- Handler `get_model` (`main.py` lines 436-443). -/
def get_model (m : ModelName) : List (String × Val) :=
  if m = ModelName.alexnet then
    [("model_name", Val.str m.value), ("message", Val.str "Deep Learning FTW!")]
  else if m.value = "lenet" then
    [("model_name", Val.str m.value), ("message", Val.str "LeCNN all the images")]
  else
    [("model_name", Val.str m.value), ("message", Val.str "Have some residuals")]

/-- The enum-decoding failure, listing the accepted values. -/
inductive EnumErr where
  | invalidEnumValue (accepted : List String)
  deriving DecidableEq

/-- GET `/models/{model_name}`: decode the enum token; on success run
the handler, otherwise fail before the handler runs. -/
def modelsEndpoint (tok : String) : Except EnumErr (List (String × Val)) :=
  match decodeModelName tok with
  | some m => Except.ok (get_model m)
  | none => Except.error (EnumErr.invalidEnumValue ["alexnet", "resnet", "lenet"])

/-! ## Helper lemmas -/

/-- A route already matched in a table is still the one matched after
any further routes are appended behind it. -/
theorem matchRoute_append {T : List Route} {m : Method} {p : List String}
    {res : Nat × List (String × String)} (extra : List Route)
    (h : matchRoute T m p = some res) :
    matchRoute (T ++ extra) m p = some res := by
  induction T with
  | nil => simp [matchRoute] at h
  | cons r rs ih =>
    rw [List.cons_append]
    by_cases hm : r.method = m
    · simp only [matchRoute, if_pos hm] at h ⊢
      cases hms : matchSegs r.segs p with
      | some bs => simp only [hms] at h ⊢; exact h
      | none => simp only [hms] at h ⊢; exact ih h
    · simp only [matchRoute, if_neg hm] at h ⊢
      exact ih h

/-- A route literally equal to the template satisfies `sameTpl`. -/
theorem sameTpl_mk (m : Method) (segs : List Seg) (h' : Nat) :
    sameTpl m segs ⟨m, segs, h'⟩ = true := by
  simp [sameTpl]

/-- Registering the same template twice is the same as registering it
once with the later handler: the later registration replaces the
earlier one. -/
theorem register_register (T : List Route) (m : Method) (segs : List Seg) (h₁ h₂ : Nat) :
    register (register T ⟨m, segs, h₁⟩) ⟨m, segs, h₂⟩ = register T ⟨m, segs, h₂⟩ := by
  simp only [register]
  by_cases hT : T.any (sameTpl m segs) = true
  · have hmap : (T.map (fun r' => if sameTpl m segs r' then (⟨m, segs, h₁⟩ : Route) else r')).any
        (sameTpl m segs) = true := by
      rcases List.any_eq_true.mp hT with ⟨x, hx, hpx⟩
      refine List.any_eq_true.mpr ⟨_, List.mem_map_of_mem _ hx, ?_⟩
      simp [hpx, sameTpl_mk]
    rw [if_pos hT, if_pos hmap, if_pos hT, List.map_map]
    refine List.map_congr_left ?_
    intro x _
    by_cases hpx : sameTpl m segs x = true
    · simp [Function.comp, hpx, sameTpl_mk]
    · simp [Function.comp, Bool.eq_false_iff.mpr hpx]
  · have hT' : T.any (sameTpl m segs) = false := Bool.eq_false_iff.mpr hT
    have happ : (T ++ [(⟨m, segs, h₁⟩ : Route)]).any (sameTpl m segs) = true := by
      simp [List.any_append, sameTpl_mk]
    rw [if_neg hT, if_pos happ, if_neg hT, List.map_append]
    have hid : T.map (fun r' => if sameTpl m segs r' then (⟨m, segs, h₂⟩ : Route) else r') = T := by
      have hall := List.any_eq_false.mp hT'
      calc T.map (fun r' => if sameTpl m segs r' then (⟨m, segs, h₂⟩ : Route) else r')
          = T.map id := List.map_congr_left (by
            intro x hx
            simp [Bool.eq_false_iff.mpr (hall x hx)])
        _ = T := List.map_id T
    rw [hid]
    simp [sameTpl_mk]

/-- The GET `/items/{item_id}` dispatcher fails exactly with the batch of
every failing field whenever any declared parameter fails. -/
theorem itemsGet_error_batch (idTok : String) (qTok sizeTok : Option String)
    (h : itemsGetErrors idTok qTok sizeTok ≠ []) :
    itemsGetEndpoint idTok qTok sizeTok =
      Except.error (itemsGetErrors idTok qTok sizeTok) := by
  unfold itemsGetErrors at h
  unfold itemsGetEndpoint itemsGetErrors
  cases hid : decodeItemId idTok <;> cases hq : decodeQ qTok <;>
      cases hs : decodeSize sizeTok <;>
    first
      | rfl
      | simp [errOf, hid, hq, hs] at h

/-! ## Claim theorems -/

/-- C1: a GET request for `/users/me` against the registered route table
dispatches the literal `read_user_me` handler (`main.py` line 448), which
returns `{"user_id": "the current user"}`, and never the dynamic
`/users/{user_id}` handler (line 454): the table is scanned in
registration order, the first structural match wins, and the outcome is
stable under appending any further registrations to the table. -/
theorem usersMe_dispatches_literal_handler (extra : List Route) :
    matchRoute (routeTable ++ extra) Method.get ["users", "me"] = some (448, [])
    ∧ (∀ bs, matchRoute (routeTable ++ extra) Method.get ["users", "me"] ≠ some (454, bs))
    ∧ read_user_me = [("user_id", Val.str "the current user")] := by
  have hbase : matchRoute routeTable Method.get ["users", "me"] = some (448, []) := by decide
  have h := matchRoute_append extra hbase
  refine ⟨h, ?_, rfl⟩
  intro bs hcon
  rw [h] at hcon
  simp at hcon

/-- C1 witness: the dispatch of GET `/users/me` on the table as
registered, with nothing appended. -/
theorem usersMe_dispatches_literal_handler_witness :
    matchRoute (routeTable ++ []) Method.get ["users", "me"] = some (448, [])
    ∧ (∀ bs, matchRoute (routeTable ++ []) Method.get ["users", "me"] ≠ some (454, bs))
    ∧ read_user_me = [("user_id", Val.str "the current user")] :=
  usersMe_dispatches_literal_handler []

/-- C2: registering a handler under an identical method and path
template replaces the earlier registration, so requests matching the
template are dispatched to the handler registered last: in the table
built from `main.py`, POST `/items/` dispatches to the second
`create_item` (line 353, not 343) and GET `/items/{item_id}` dispatches
to the final `read_item` (line 466). -/
theorem duplicate_registration_last_wins :
    (∀ (T : List Route) (m : Method) (segs : List Seg) (h₁ h₂ : Nat),
      register (register T ⟨m, segs, h₁⟩) ⟨m, segs, h₂⟩ = register T ⟨m, segs, h₂⟩)
    ∧ matchRoute routeTable Method.post ["items", ""] = some (353, [])
    ∧ matchRoute routeTable Method.get ["items", "7"] = some (466, [("item_id", "7")]) :=
  ⟨register_register, by decide, by decide⟩

/-- C3: whenever decoding/validation of a GET `/items/{item_id}` request
(route of `main.py` lines 110-121) fails, the dispatcher aborts without
invoking the handler and returns the single batch of every failing
field; in particular when `item_id`, `q` and `size` all fail, all three
errors are reported, not only the first. -/
theorem validation_enumerates_all_failures :
    (∀ idTok qTok sizeTok, itemsGetErrors idTok qTok sizeTok ≠ [] →
      itemsGetEndpoint idTok qTok sizeTok = Except.error (itemsGetErrors idTok qTok sizeTok))
    ∧ (∀ idTok qTok sizeTok e₁ e₂ e₃,
        decodeItemId idTok = Except.error e₁ →
        decodeQ qTok = Except.error e₂ →
        decodeSize sizeTok = Except.error e₃ →
        itemsGetEndpoint idTok qTok sizeTok = Except.error [e₁, e₂, e₃]) := by
  refine ⟨itemsGet_error_batch, ?_⟩
  intro idTok qTok sizeTok e₁ e₂ e₃ h₁ h₂ h₃
  have h := itemsGet_error_batch idTok qTok sizeTok
    (by simp [itemsGetErrors, h₁, h₂, h₃, errOf])
  rw [h]
  simp [itemsGetErrors, h₁, h₂, h₃, errOf]

/-- C3 witness: `item_id` out of bounds, `q` missing and `size` out of
bounds simultaneously yield the three-element error batch. -/
theorem validation_enumerates_all_failures_witness :
    itemsGetEndpoint "2000" none (some "99") =
      Except.error [⟨"item_id", ErrKind.constraintViolation⟩,
        ⟨"q", ErrKind.missingRequired⟩, ⟨"size", ErrKind.constraintViolation⟩] :=
  validation_enumerates_all_failures.2 "2000" none (some "99") _ _ _ rfl rfl rfl

/-- C4: GET `/models/{x}` succeeds exactly for the case-sensitive tokens
`alexnet`, `resnet`, `lenet`, with the member-specific messages of
`get_model` (`main.py` lines 434-443); every other token fails with
`InvalidEnumValue` before the handler runs. -/
theorem models_enum_endpoint (x : String) :
    (x = "alexnet" → modelsEndpoint x =
      Except.ok [("model_name", Val.str "alexnet"), ("message", Val.str "Deep Learning FTW!")])
    ∧ (x = "lenet" → modelsEndpoint x =
      Except.ok [("model_name", Val.str "lenet"), ("message", Val.str "LeCNN all the images")])
    ∧ (x = "resnet" → modelsEndpoint x =
      Except.ok [("model_name", Val.str "resnet"), ("message", Val.str "Have some residuals")])
    ∧ (x ∉ (["alexnet", "resnet", "lenet"] : List String) →
      modelsEndpoint x = Except.error (EnumErr.invalidEnumValue ["alexnet", "resnet", "lenet"])) := by
  refine ⟨?_, ?_, ?_, ?_⟩
  · rintro rfl; rfl
  · rintro rfl; rfl
  · rintro rfl; rfl
  · intro h
    simp only [List.mem_cons, List.not_mem_nil, or_false, not_or] at h
    obtain ⟨h₁, h₂, h₃⟩ := h
    simp [modelsEndpoint, decodeModelName, h₁, h₂, h₃]

/-- C4 witness: the three valid tokens succeed with their messages, and
a token differing only in case is rejected before the handler runs. -/
theorem models_enum_endpoint_witness :
    modelsEndpoint "alexnet" =
      Except.ok [("model_name", Val.str "alexnet"), ("message", Val.str "Deep Learning FTW!")]
    ∧ modelsEndpoint "lenet" =
      Except.ok [("model_name", Val.str "lenet"), ("message", Val.str "LeCNN all the images")]
    ∧ modelsEndpoint "resnet" =
      Except.ok [("model_name", Val.str "resnet"), ("message", Val.str "Have some residuals")]
    ∧ modelsEndpoint "AlexNet" =
      Except.error (EnumErr.invalidEnumValue ["alexnet", "resnet", "lenet"]) :=
  ⟨(models_enum_endpoint "alexnet").1 rfl, (models_enum_endpoint "lenet").2.1 rfl,
   (models_enum_endpoint "resnet").2.2.1 rfl, (models_enum_endpoint "AlexNet").2.2.2 (by decide)⟩

/-- C5: on the GET `/items/{item_id}` route declared with `ge=0, le=1000`
(`main.py` line 114), any integer `item_id` outside `[0, 1000]` yields a
`ConstraintViolation` naming `item_id` and never a successful response
body. -/
theorem itemId_out_of_bounds_rejected (tok : String) (n : Int) (qTok sizeTok : Option String)
    (hdec : decodeInt tok = some n) (hout : n < 0 ∨ 1000 < n) :
    decodeItemId tok = Except.error ⟨"item_id", ErrKind.constraintViolation⟩
    ∧ (∃ es, itemsGetEndpoint tok qTok sizeTok = Except.error es
        ∧ (⟨"item_id", ErrKind.constraintViolation⟩ : FieldError) ∈ es)
    ∧ ∀ body, itemsGetEndpoint tok qTok sizeTok ≠ Except.ok body := by
  have hid : decodeItemId tok = Except.error ⟨"item_id", ErrKind.constraintViolation⟩ := by
    unfold decodeItemId
    rw [hdec]
    have hnot : ¬(0 ≤ n ∧ n ≤ 1000) := by omega
    simp [hnot]
  have herr : itemsGetErrors tok qTok sizeTok ≠ [] := by
    simp [itemsGetErrors, hid, errOf]
  have h := itemsGet_error_batch tok qTok sizeTok herr
  refine ⟨hid, ⟨itemsGetErrors tok qTok sizeTok, h, ?_⟩, ?_⟩
  · simp [itemsGetErrors, hid, errOf]
  · intro body hcon
    rw [h] at hcon
    exact Except.noConfusion hcon

/-- C5 witness: `item_id = 1001` is rejected with a `ConstraintViolation`
naming `item_id`, with no successful body. -/
theorem itemId_out_of_bounds_rejected_witness :
    decodeItemId "1001" = Except.error ⟨"item_id", ErrKind.constraintViolation⟩
    ∧ (∃ es, itemsGetEndpoint "1001" (some "x") (some "1") = Except.error es
        ∧ (⟨"item_id", ErrKind.constraintViolation⟩ : FieldError) ∈ es)
    ∧ ∀ body, itemsGetEndpoint "1001" (some "x") (some "1") ≠ Except.ok body :=
  itemId_out_of_bounds_rejected "1001" 1001 (some "x") (some "1") (by decide) (by decide)

/-- C6 fails as stated: with `tax` absent from the input, the response
of `create_item` (`main.py` lines 341-348) still contains a `tax` field
(bound to null) — the field is not omitted. -/
theorem createItem_tax_field_still_present :
    "tax" ∈ (create_item ⟨"Foo", none, 10.5, none, [], none⟩).map Prod.fst := by
  decide

/-- C6 amended: submitting `{name:"Foo", price:10.5}` to `create_item`
returns a body with `name = "Foo"`, `price = 10.5`, a `tax` field bound
to null (rather than no `tax` field), and no `price_with_tax`; with
`tax = 1.5` present, `price_with_tax = price + tax = 12` exactly. -/
theorem createItem_roundtrip :
    (create_item ⟨"Foo", none, 10.5, none, [], none⟩).lookup "name" = some (Val.str "Foo")
    ∧ (create_item ⟨"Foo", none, 10.5, none, [], none⟩).lookup "price" = some (Val.num 10.5)
    ∧ (create_item ⟨"Foo", none, 10.5, none, [], none⟩).lookup "tax" = some Val.null
    ∧ (create_item ⟨"Foo", none, 10.5, none, [], none⟩).lookup "price_with_tax" = none
    ∧ (create_item ⟨"Foo", none, 10.5, some 1.5, [], none⟩).lookup "price_with_tax"
        = some (Val.num (10.5 + 1.5))
    ∧ (10.5 + 1.5 : ℚ) = 12 := by
  have ht : taxTruthy (some (1.5 : ℚ)) = true := by
    simp only [taxTruthy, bne_iff_ne, ne_eq, decide_not]
    norm_num
  refine ⟨rfl, rfl, rfl, rfl, ?_, by norm_num⟩
  simp only [create_item, ht, if_true]
  rfl

/-- C7: the greedy template `/files/{file_path:path}` binds `file_path`
to the entire remainder of the path verbatim, separators included; in
particular GET `/files/a/b/c` dispatches `read_file` (`main.py` lines
428-431) with `file_path = "a/b/c"` and response
`{"file_path": "a/b/c"}`. -/
theorem files_greedy_binds_remainder :
    (∀ rest : List String, matchSegs filesSegs ("files" :: rest) =
      some [("file_path", String.intercalate "/" rest)])
    ∧ matchRoute routeTable Method.get ["files", "a", "b", "c"] =
        some (430, [("file_path", "a/b/c")])
    ∧ read_file "a/b/c" = [("file_path", Val.str "a/b/c")] := by
  refine ⟨fun rest => ?_, by decide, rfl⟩
  simp [filesSegs, matchSegs]

/-- C7 witness: the greedy segment binding evaluated at the concrete
remainder `a/b/c`. -/
theorem files_greedy_binds_remainder_witness :
    matchSegs filesSegs ("files" :: ["a", "b", "c"]) =
      some [("file_path", String.intercalate "/" ["a", "b", "c"])] :=
  files_greedy_binds_remainder.1 ["a", "b", "c"]

/-- C8: the list-typed query parameter `q` of `main.py` lines 230-236
decodes to its declared default `["foo", "bar"]` (in that order) when no
`q` is supplied, and to exactly the supplied values in supplied order
when `q` occurs, replacing the default entirely with no merging. -/
theorem listQuery_default_and_override :
    decodeListQuery "q" ["foo", "bar"] [] = ["foo", "bar"]
    ∧ decodeListQuery "q" ["foo", "bar"] [("q", "x"), ("q", "y")] = ["x", "y"]
    ∧ (∀ pairs : List (String × String),
        (pairs.filter (fun p => p.1 == "q")).map Prod.snd ≠ [] →
        decodeListQuery "q" ["foo", "bar"] pairs =
          (pairs.filter (fun p => p.1 == "q")).map Prod.snd)
    ∧ read_items_234 [] = [("q", Val.arr [Val.str "foo", Val.str "bar"])] := by
  refine ⟨rfl, rfl, ?_, rfl⟩
  intro pairs hne
  simp [decodeListQuery, hne]

/-- C8 witness: with `q` supplied, the decoded value is exactly the
collected occurrences, ignoring the default. -/
theorem listQuery_default_and_override_witness :
    decodeListQuery "q" ["foo", "bar"] [("q", "z"), ("x", "w")] = ["z"] :=
  listQuery_default_and_override.2.2.1 [("q", "z"), ("x", "w")] (by decide)

/-- C9: bool decoding of a raw query token succeeds with `true` iff the
token case-insensitively matches one of `{"1","true","on","yes"}`,
succeeds with `false` iff it matches one of `{"0","false","off","no"}`,
and fails on every other token. -/
theorem decodeBool_truthy_falsy (t : String) :
    (decodeBool t = some true ↔ lowerStr t ∈ truthySet)
    ∧ (decodeBool t = some false ↔ lowerStr t ∈ falsySet)
    ∧ (decodeBool t = none ↔ lowerStr t ∉ truthySet ∧ lowerStr t ∉ falsySet) := by
  have hdisj : lowerStr t ∈ truthySet → lowerStr t ∉ falsySet := by
    intro h₁
    simp only [truthySet, List.mem_cons, List.not_mem_nil, or_false] at h₁
    rcases h₁ with h | h | h | h <;> rw [h] <;> decide
  by_cases h₁ : lowerStr t ∈ truthySet
  · have h₂ := hdisj h₁
    simp [decodeBool, h₁, h₂]
  · by_cases h₂ : lowerStr t ∈ falsySet
    · simp [decodeBool, h₁, h₂]
    · simp [decodeBool, h₁, h₂]

/-- C9 witness: a case-insensitive truthy token, a falsy token, and a
rejected token. -/
theorem decodeBool_truthy_falsy_witness :
    decodeBool "YES" = some true
    ∧ decodeBool "off" = some false
    ∧ decodeBool "2" = none :=
  ⟨(decodeBool_truthy_falsy "YES").1.mpr (by decide),
   (decodeBool_truthy_falsy "off").2.1.mpr (by decide),
   (decodeBool_truthy_falsy "2").2.2.mpr (by decide)⟩

/-- C10: an `Item` whose `tax` is present and equal to `0.0` gets no
`price_with_tax` field from `create_item` (`main.py` lines 341-348):
the handler adds it only when `tax` is truthy, so a zero tax behaves
exactly like an absent tax (the plain dump is returned in both cases). -/
theorem zero_tax_behaves_like_absent (it : Item) (h : it.tax = some 0 ∨ it.tax = none) :
    (create_item it).lookup "price_with_tax" = none
    ∧ create_item it = model_dump it := by
  have ht : taxTruthy it.tax = false := by
    rcases h with h | h <;> simp [taxTruthy, h]
  have hc : create_item it = model_dump it := by
    simp [create_item, ht]
  exact ⟨by rw [hc]; rfl, hc⟩

/-- C10 witness: `tax = 0.0` yields the plain dump without
`price_with_tax`. -/
theorem zero_tax_behaves_like_absent_witness :
    (create_item ⟨"Foo", none, 10.5, some 0, [], none⟩).lookup "price_with_tax" = none
    ∧ create_item ⟨"Foo", none, 10.5, some 0, [], none⟩ =
      model_dump ⟨"Foo", none, 10.5, some 0, [], none⟩ :=
  zero_tax_behaves_like_absent ⟨"Foo", none, 10.5, some 0, [], none⟩ (Or.inl rfl)

end FastapiTutorial
